import Mathlib

/-
Verification of the Line3 3D line-segment primitive (package math32,
file line3.go) against its specification.

Embedding notes.  Line3 is translated from the source file.  The external
collaborators Vector3 and Matrix4 are code of this repository that is not
under src/, so they are modelled from the spec (each such definition says
so in its doc comment).  Go's float32 components are idealised as exact
rationals; Distance, which takes a square root, lands in the reals.
Pointer arguments that may be nil become Option values; mutation of the
receiver becomes a returned updated value; a nil-pointer dereference
becomes an Option-valued result that is none on a nil argument.
-/

namespace Celer

/-- Modelled from the spec: the external 3-component vector type
(section 1: "A 3-component vector type supporting: copy/assign,
componentwise add/subtract producing a new or target vector, scalar
multiplication, squared/unsquared Euclidean distance between two vectors,
equality, and in-place transformation by a 4x4 matrix"). -/
structure Vector3 where
  x : ℚ
  y : ℚ
  z : ℚ
deriving DecidableEq

/-- Modelled from the spec: construction of a vector from components. -/
def NewVector3 (x y z : ℚ) : Vector3 :=
  ⟨x, y, z⟩

/-- Modelled from the spec: componentwise addition written into the
receiver (the receiver's prior value is entirely overwritten). -/
def Vector3.AddVectors (_v a b : Vector3) : Vector3 :=
  ⟨a.x + b.x, a.y + b.y, a.z + b.z⟩

/-- Modelled from the spec: componentwise subtraction a - b written into
the receiver (the receiver's prior value is entirely overwritten). -/
def Vector3.SubVectors (_v a b : Vector3) : Vector3 :=
  ⟨a.x - b.x, a.y - b.y, a.z - b.z⟩

/-- Modelled from the spec: scalar multiplication of the receiver. -/
def Vector3.MultiplyScalar (v : Vector3) (s : ℚ) : Vector3 :=
  ⟨v.x * s, v.y * s, v.z * s⟩

/-- Modelled from the spec: squared Euclidean distance between two
vectors. -/
def Vector3.DistanceToSquared (v o : Vector3) : ℚ :=
  (v.x - o.x) ^ 2 + (v.y - o.y) ^ 2 + (v.z - o.z) ^ 2

/-- Modelled from the spec: unsquared Euclidean distance, the square root
of the squared distance. -/
noncomputable def Vector3.DistanceTo (v o : Vector3) : ℝ :=
  Real.sqrt (v.DistanceToSquared o)

/-- Modelled from the spec: exact componentwise equality, no tolerance
("exact, not epsilon-based"). -/
def Vector3.Equals (v o : Vector3) : Bool :=
  decide (v.x = o.x) && decide (v.y = o.y) && decide (v.z = o.z)

/-- Modelled from the spec: the external 4x4 matrix type (row-major entry
names: mRC is row R, column C). -/
structure Matrix4 where
  m11 : ℚ
  m12 : ℚ
  m13 : ℚ
  m14 : ℚ
  m21 : ℚ
  m22 : ℚ
  m23 : ℚ
  m24 : ℚ
  m31 : ℚ
  m32 : ℚ
  m33 : ℚ
  m34 : ℚ
  m41 : ℚ
  m42 : ℚ
  m43 : ℚ
  m44 : ℚ
deriving DecidableEq

/-- Modelled from the spec: the identity matrix. -/
def Matrix4.Identity : Matrix4 :=
  ⟨1, 0, 0, 0, 0, 1, 0, 0, 0, 0, 1, 0, 0, 0, 0, 1⟩

/-- Modelled from the spec: in-place transformation of a vector by a 4x4
matrix, "homogeneous transform, perspective divide applied internally". -/
def Vector3.ApplyMatrix4 (v : Vector3) (m : Matrix4) : Vector3 :=
  let w := m.m41 * v.x + m.m42 * v.y + m.m43 * v.z + m.m44
  ⟨(m.m11 * v.x + m.m12 * v.y + m.m13 * v.z + m.m14) / w,
   (m.m21 * v.x + m.m22 * v.y + m.m23 * v.z + m.m24) / w,
   (m.m31 * v.x + m.m32 * v.y + m.m33 * v.z + m.m34) / w⟩

/-- Line3 represents a 3D line segment defined by a start and an end
point (translated from line3.go). -/
structure Line3 where
  start : Vector3
  «end» : Vector3
deriving DecidableEq

/-- Set sets this line segment start and end points; a nil argument
leaves the corresponding endpoint untouched.  The Go code returns the
receiver pointer; here the updated receiver value is returned. -/
def Line3.Set (l : Line3) (s e : Option Vector3) : Line3 :=
  let l1 := match s with
    | some v => { l with start := v }
    | none => l
  match e with
  | some v => { l1 with «end» := v }
  | none => l1

/-- NewLine3 creates a new Line3 with the specified start and end points:
a zero-valued line (Go zero value of the struct) updated by Set. -/
def NewLine3 (s e : Option Vector3) : Line3 :=
  Line3.Set ⟨NewVector3 0 0 0, NewVector3 0 0 0⟩ s e

/-- OperateOnVertices calls the callback first with (a pointer to) the
start vertex, then, unless the callback returned true, with the end
vertex.  The callback may mutate the vertex through the pointer; here it
receives the vertex value and returns the vertex's new content, plus the
stop flag, plus its own updated closure state σ. -/
def Line3.OperateOnVertices {σ : Type} (t : Line3)
    (cb : Vector3 → σ → Vector3 × Bool × σ) (s : σ) : Line3 × σ :=
  let r1 := cb t.start s
  let t1 : Line3 := { t with start := r1.1 }
  if r1.2.1 = true then (t1, r1.2.2)
  else
    let r2 := cb t1.«end» r1.2.2
    ({ t1 with «end» := r2.1 }, r2.2.2)

/-- ReadVertices calls the callback with the value of the start vertex,
then, unless the callback returned true, with the value of the end
vertex.  The callback receives the endpoints by value, so it cannot write
back into the line: the embedding returns only the callback's closure
state σ, never an updated line. -/
def Line3.ReadVertices {σ : Type} (t : Line3)
    (cb : Vector3 → σ → Bool × σ) (s : σ) : σ :=
  let r1 := cb t.start s
  if r1.1 = true then r1.2
  else (cb t.«end» r1.2).2

/-- Returns the start point for the line (a mutable pointer in Go; the
value here). -/
def Line3.Start (l : Line3) : Vector3 :=
  l.start

/-- Returns the end point for the line (a mutable pointer in Go; the
value here). -/
def Line3.End (l : Line3) : Vector3 :=
  l.«end»

/-- Copy copies the other line segment into this one (Go: a nil other
faults on the dereference, hence the Option result). -/
def Line3.Copy (_l : Line3) (other : Option Line3) : Option Line3 :=
  match other with
  | none => none
  | some o => some o

/-- Center calculates this line segment center point: the result variable
is the target if non-nil, a fresh zero vector otherwise, and is then
entirely overwritten with (start + end) * 0.5. -/
def Line3.Center (l : Line3) (optionalTarget : Option Vector3) : Vector3 :=
  let result := match optionalTarget with
    | none => NewVector3 0 0 0
    | some t => t
  (result.AddVectors l.start l.«end»).MultiplyScalar 0.5

/-- Delta calculates the vector from the start to the end point: the
result variable is the target if non-nil, a fresh zero vector otherwise,
and is then entirely overwritten with end - start. -/
def Line3.Delta (l : Line3) (optionalTarget : Option Vector3) : Vector3 :=
  let result := match optionalTarget with
    | none => NewVector3 0 0 0
    | some t => t
  result.SubVectors l.«end» l.start

/-- DistanceSq returns the square of the distance from the start point to
the end point. -/
def Line3.DistanceSq (l : Line3) : ℚ :=
  l.start.DistanceToSquared l.«end»

/-- Distance returns the distance from the start point to the end
point. -/
noncomputable def Line3.Distance (l : Line3) : ℝ :=
  l.start.DistanceTo l.«end»

/-- ApplyMatrix4 applies the specified matrix to this line segment start
and end points. -/
def Line3.ApplyMatrix4 (l : Line3) (m : Matrix4) : Line3 :=
  ⟨l.start.ApplyMatrix4 m, l.«end».ApplyMatrix4 m⟩

/-- Equals returns whether this line segment is equal to the other (Go: a
nil other faults on the dereference, hence the Option result). -/
def Line3.Equals (l : Line3) (other : Option Line3) : Option Bool :=
  match other with
  | none => none
  | some o => some (Vector3.Equals o.start l.start && Vector3.Equals o.«end» l.«end»)

/-- Clone creates and returns a copy of this line segment, built by
NewLine3 from value copies of the endpoints. -/
def Line3.Clone (l : Line3) : Line3 :=
  NewLine3 (some l.start) (some l.«end»)

/-- Instrumentation for the traversal claims: wraps a pure per-vertex
mutable callback with a log (in σ) of the argument of each invocation. -/
def loggedMut (f : Vector3 → Vector3 × Bool) :
    Vector3 → List Vector3 → Vector3 × Bool × List Vector3 :=
  fun v log => ((f v).1, (f v).2, log ++ [v])

/-- Instrumentation for the traversal claims: wraps a pure per-vertex
read-only callback with a log of the argument of each invocation. -/
def loggedRead (g : Vector3 → Bool) :
    Vector3 → List Vector3 → Bool × List Vector3 :=
  fun v log => (g v, log ++ [v])

theorem Vector3.eq_iff (a b : Vector3) :
    a = b ↔ a.x = b.x ∧ a.y = b.y ∧ a.z = b.z := by
  cases a
  cases b
  simp [Vector3.mk.injEq]

theorem Vector3.equals_self (a : Vector3) : Vector3.Equals a a = true := by
  simp [Vector3.Equals]

/-- Claim C1: after Set(s, e) the start endpoint is the value of *s when
s is non-nil and the old start otherwise, the end endpoint is the value
of *e when e is non-nil and the old end otherwise; Set(nil, nil) leaves
the line unchanged; and Set returns the instance it was called on (in the
value embedding, its updated state). -/
theorem Line3.set_spec (l : Line3) (s e : Option Vector3) :
    (l.Set s e).start = (match s with | some v => v | none => l.start) ∧
    (l.Set s e).«end» = (match e with | some v => v | none => l.«end») ∧
    l.Set none none = l := by
  cases s <;> cases e <;> simp [Line3.Set]

/-- Claim C2: Center computes (start + end) * 0.5; the returned vector
holds that value whatever the target argument (fresh when the target is
nil, the overwritten target otherwise), and the line's endpoints are not
mutated (the embedding returns only the result vector, never an updated
line). -/
theorem Line3.center_spec (l : Line3) (t : Option Vector3) :
    l.Center t =
      ⟨(l.start.x + l.«end».x) * (1 / 2),
       (l.start.y + l.«end».y) * (1 / 2),
       (l.start.z + l.«end».z) * (1 / 2)⟩ := by
  cases t <;>
    simp [Line3.Center, Vector3.AddVectors, Vector3.MultiplyScalar, NewVector3] <;>
    norm_num

/-- Claim C3: Delta computes end - start; the returned vector holds that
value whatever the target argument (fresh when the target is nil, the
overwritten target otherwise), and the line's endpoints are not mutated
(the embedding returns only the result vector, never an updated line). -/
theorem Line3.delta_spec (l : Line3) (t : Option Vector3) :
    l.Delta t =
      ⟨l.«end».x - l.start.x,
       l.«end».y - l.start.y,
       l.«end».z - l.start.z⟩ := by
  cases t <;> simp [Line3.Delta, Vector3.SubVectors, NewVector3]

/-- Claim C4: Distance equals the square root of DistanceSq for every
line, and a degenerate segment (start = end) has Distance 0. -/
theorem Line3.distance_spec (l : Line3) :
    l.Distance = Real.sqrt l.DistanceSq ∧
    (l.start = l.«end» → l.Distance = 0) := by
  refine ⟨rfl, fun h => ?_⟩
  simp [Line3.Distance, Vector3.DistanceTo, Vector3.DistanceToSquared, h]

/-- Witness for C4 at the degenerate line ((1,2,3),(1,2,3)). -/
theorem Line3.distance_spec_witness :
    Line3.Distance ⟨⟨1, 2, 3⟩, ⟨1, 2, 3⟩⟩ =
      Real.sqrt (Line3.DistanceSq ⟨⟨1, 2, 3⟩, ⟨1, 2, 3⟩⟩) ∧
    Line3.Distance ⟨⟨1, 2, 3⟩, ⟨1, 2, 3⟩⟩ = 0 :=
  ⟨(Line3.distance_spec ⟨⟨1, 2, 3⟩, ⟨1, 2, 3⟩⟩).1,
   (Line3.distance_spec ⟨⟨1, 2, 3⟩, ⟨1, 2, 3⟩⟩).2 rfl⟩

/-- Claim C5: for a non-nil other, Equals returns true exactly when both
corresponding endpoints are equal under the vector type's exact equality;
in particular ((0,0,0),(2,0,0)) equals ((0,0,0),(2,0,0)) and does not
equal ((0,0,0),(2,0,1)). -/
theorem Line3.equals_spec (l o : Line3) :
    (l.Equals (some o) = some true ↔
      o.start = l.start ∧ o.«end» = l.«end») ∧
    Line3.Equals ⟨⟨0, 0, 0⟩, ⟨2, 0, 0⟩⟩ (some ⟨⟨0, 0, 0⟩, ⟨2, 0, 0⟩⟩) = some true ∧
    Line3.Equals ⟨⟨0, 0, 0⟩, ⟨2, 0, 0⟩⟩ (some ⟨⟨0, 0, 1⟩, ⟨2, 0, 1⟩⟩) = some false := by
  refine ⟨?_, by decide, by decide⟩
  simp [Line3.Equals, Vector3.Equals, Vector3.eq_iff, and_assoc]

/-- Claim C6: ApplyMatrix4 transforms the start endpoint and the end
endpoint (both in place; the updated receiver is returned), and the
identity matrix leaves both endpoints unchanged. -/
theorem Line3.applyMatrix4_spec (l : Line3) (m : Matrix4) :
    (l.ApplyMatrix4 m).start = l.start.ApplyMatrix4 m ∧
    (l.ApplyMatrix4 m).«end» = l.«end».ApplyMatrix4 m ∧
    l.ApplyMatrix4 Matrix4.Identity = l := by
  refine ⟨rfl, rfl, ?_⟩
  have hv : ∀ v : Vector3, v.ApplyMatrix4 Matrix4.Identity = v := by
    intro v
    cases v
    simp [Vector3.ApplyMatrix4, Matrix4.Identity]
  cases l
  simp [Line3.ApplyMatrix4, hv]

/-- Claim C7: OperateOnVertices invokes the callback on the start vertex
and, only if that call returned false, on the end vertex: with a stopping
first call the log of invocations is [start] (one call, never a second),
with a never-stopping callback it is [start, end] (exactly once per
endpoint, start then end) and the edits are retained in the returned
line; ReadVertices has the same order and stop semantics over endpoint
values, its callback by type unable to write back into the line. -/
theorem Line3.visit_spec (l : Line3) (f : Vector3 → Vector3 × Bool)
    (g : Vector3 → Bool) :
    l.OperateOnVertices (loggedMut f) ([] : List Vector3) =
      (if (f l.start).2 = true
       then ({ l with start := (f l.start).1 }, [l.start])
       else (⟨(f l.start).1, (f l.«end»).1⟩, [l.start, l.«end»])) ∧
    l.ReadVertices (loggedRead g) ([] : List Vector3) =
      (if g l.start = true then [l.start] else [l.start, l.«end»]) := by
  constructor
  · by_cases h : (f l.start).2 = true <;>
      simp [Line3.OperateOnVertices, loggedMut, h]
  · by_cases h : g l.start = true <;>
      simp [Line3.ReadVertices, loggedRead, h]

/-- Claim C8: Clone builds a new line from value copies of the endpoints;
it is value-equal to the original (Equals returns true), and because it
is a fresh value copy it shares no mutable state with the original. -/
theorem Line3.clone_spec (l : Line3) :
    l.Clone = l ∧ l.Equals (some l.Clone) = some true := by
  have h : l.Clone = l := by
    cases l
    simp [Line3.Clone, NewLine3, Line3.Set]
  refine ⟨h, ?_⟩
  rw [h]
  simp [Line3.Equals, Vector3.equals_self]

/-- Claim C9: NewLine3 leaves an endpoint at the zero default (0,0,0)
when its argument is nil and sets it to a value copy of the argument
otherwise; construction cannot fail. -/
theorem Line3.newLine3_spec (s e : Option Vector3) :
    (NewLine3 s e).start = (match s with | some v => v | none => NewVector3 0 0 0) ∧
    (NewLine3 s e).«end» = (match e with | some v => v | none => NewVector3 0 0 0) := by
  cases s <;> cases e <;> simp [NewLine3, Line3.Set]

/-- Claim C10: Copy and Equals dereference their other argument, so a nil
other faults (none in the embedding); under the precondition other is
non-nil, Copy replaces the entire state of the receiver with a value copy
of other (returning the updated receiver) and the fault branch is
unreachable. -/
theorem Line3.copy_equals_nil_spec (l : Line3) :
    l.Copy none = none ∧ l.Equals none = none ∧
    ∀ o : Line3, l.Copy (some o) = some o :=
  ⟨rfl, rfl, fun _ => rfl⟩

end Celer
